import Mathlib

/-!
Verification development for the Sentinel fraud-triage service.

Each definition below is a shallow embedding of a function of the
TypeScript source; source locations are given in the doc comments.
Machine numbers are modelled as `Nat`/`Int`/`Rat` (amounts are integer
cents, scores are rationals because the merchant component contributes
`0.5 × riskScore`).  Stateful routes are modelled as explicit state
passing; the success or failure of an agent invocation inside the
orchestrator is an oracle parameter (`TriageBehavior`), since the claims
under study are about the orchestrator's bookkeeping, not the agents'
internals.
-/

namespace Sentinel

/-! ## Fraud agent: composite risk score (fraud-agent.ts, `FraudAgent`) -/

/-- Result of `analyzeVelocity` (fraud-agent.ts lines 118-136).
`amountLast24h` is in cents; `avgDaily` is `historical.length / 89`,
a rational. -/
structure VelocityAnalysis where
  txnsLast24h : ℕ
  amountLast24h : ℤ
  avgDaily : ℚ
deriving DecidableEq, Repr

/-- Result of `analyzeDevice` (fraud-agent.ts lines 138-146). -/
structure DeviceAnalysis where
  newDevice : Bool
  deviceChanges : ℕ
deriving DecidableEq, Repr

/-- Result of `analyzeMerchant` (fraud-agent.ts lines 148-175). -/
structure MerchantAnalysis where
  newMerchant : Bool
  riskScore : ℕ
deriving DecidableEq, Repr

/-- Result of `analyzePatterns` (fraud-agent.ts lines 177-201). -/
structure PatternAnalysis where
  unusualTime : Bool
  unusualLocation : Bool
  velocitySpike : Bool
deriving DecidableEq, Repr

/-- JavaScript `Math.round`: round half toward positive infinity. -/
def jsRound (q : ℚ) : ℤ := ⌊q + 1 / 2⌋

/-- `FraudAgent.calculateRiskScore` (fraud-agent.ts lines 217-250).
The accumulator is rational because of the `merchant.riskScore * 0.5`
term; the final value is `Math.min(Math.round(score), 100)`. -/
def calculateRiskScore (v : VelocityAnalysis) (d : DeviceAnalysis)
    (m : MerchantAnalysis) (p : PatternAnalysis) (suspectAmountCents : ℤ) : ℤ :=
  let score : ℚ := 0
  let score := if (v.txnsLast24h : ℚ) > v.avgDaily * 3 then score + 25
    else if (v.txnsLast24h : ℚ) > v.avgDaily * 2 then score + 15 else score
  let score := if v.amountLast24h > 100000 then score + 20 else score
  let score := if d.newDevice then score + 20 else score
  let score := if d.deviceChanges > 5 then score + 10 else score
  let score := score + (m.riskScore : ℚ) * (1 / 2)
  let score := if p.unusualTime then score + 15 else score
  let score := if p.unusualLocation then score + 20 else score
  let score := if p.velocitySpike then score + 25 else score
  let score := if suspectAmountCents > 50000 then score + 15 else score
  let score := if suspectAmountCents > 100000 then score + 10 else score
  min (jsRound score) 100

/-- The sum of contributions exactly as the specification lists them
(spec §4.4 "Composite score"): one bounded term per predicate, no
rounding anywhere. -/
def specScoreSum (v : VelocityAnalysis) (d : DeviceAnalysis)
    (m : MerchantAnalysis) (p : PatternAnalysis) (suspectAmountCents : ℤ) : ℚ :=
  (if (v.txnsLast24h : ℚ) > v.avgDaily * 3 then 25
    else if (v.txnsLast24h : ℚ) > v.avgDaily * 2 then 15 else 0)
  + (if v.amountLast24h > 100000 then 20 else 0)
  + (if d.newDevice then 20 else 0)
  + (if d.deviceChanges > 5 then 10 else 0)
  + (m.riskScore : ℚ) * (1 / 2)
  + (if p.unusualTime then 15 else 0)
  + (if p.unusualLocation then 20 else 0)
  + (if p.velocitySpike then 25 else 0)
  + (if suspectAmountCents > 50000 then 15 else 0)
  + (if suspectAmountCents > 100000 then 10 else 0)

/-- The composite score as the claim words it: the sum of the listed
contributions, clamped to the interval `[0, 100]` (no rounding). -/
def specRiskScore (v : VelocityAnalysis) (d : DeviceAnalysis)
    (m : MerchantAnalysis) (p : PatternAnalysis) (suspectAmountCents : ℤ) : ℚ :=
  max 0 (min (specScoreSum v d m p suspectAmountCents) 100)

/-! ## Insights agent: customer profile and risk assessment
(insights-agent.ts, `InsightsAgent`) -/

/-- Customer risk tier as classified by `analyzeCustomerProfile`. -/
inductive RiskTier
  | low
  | medium
  | high
deriving DecidableEq, Repr

/-- Transaction pattern as classified by `analyzeCustomerProfile`. -/
inductive TxnPattern
  | regular
  | concentrated
  | highFrequency
  | highValue
deriving DecidableEq, Repr

/-- A transaction as consumed by the insights agent: only `amountCents`
and `merchant` are read (insights-agent.ts lines 75-77). -/
structure InsightsTxn where
  amountCents : ℤ
  merchant : String
deriving DecidableEq, Repr

/-- Result of `analyzeCustomerProfile` (insights-agent.ts lines 65-100). -/
structure CustomerProfileAnalysis where
  riskTier : RiskTier
  transactionPattern : TxnPattern
  historicalIncidents : ℕ
deriving DecidableEq, Repr

/-- The risk-signals object as read by the insights and compliance
agents: a score and the reason strings. -/
structure RiskSignalsView where
  score : ℚ
  reasons : List String
deriving DecidableEq, Repr

/-- `InsightsAgent.analyzeCustomerProfile` (insights-agent.ts lines
65-100).  The `profile` argument of the source is never read by the
body, so it is omitted here.  `historicalIncidents` is the constant `0`
("Would be calculated from actual incident history", line 68). -/
def analyzeCustomerProfile (transactions : List InsightsTxn) : CustomerProfileAnalysis :=
  if transactions.length = 0 then
    { riskTier := .low, transactionPattern := .regular, historicalIncidents := 0 }
  else
    let totalAmount : ℤ := (transactions.map (·.amountCents)).sum
    let avgAmount : ℚ := (totalAmount : ℚ) / (transactions.length : ℚ)
    let uniqueMerchants := ((transactions.map (·.merchant)).dedup).length
    let riskTier : RiskTier :=
      if totalAmount > 500000 ∨ avgAmount > 50000 then .high
      else if totalAmount > 200000 ∨ avgAmount > 20000 then .medium
      else .low
    let transactionPattern : TxnPattern :=
      if uniqueMerchants < 3 ∧ transactions.length > 10 then .concentrated
      else if transactions.length > 50 then .highFrequency
      else if avgAmount > 30000 then .highValue
      else .regular
    { riskTier := riskTier, transactionPattern := transactionPattern,
      historicalIncidents := 0 }

/-- Risk level with confidence, the `riskAssessment` part of
`generateRiskAssessment`. -/
structure RiskAssessment where
  level : RiskTier
  confidence : ℕ
deriving DecidableEq, Repr

/-- `InsightsAgent.generateRiskAssessment` (insights-agent.ts lines
102-130), without the `keyFactors` extraction which the claims do not
touch.  `riskSignals.score || 30` maps a zero score to 30 (JavaScript
falsiness on numbers). -/
def generateRiskAssessment (riskSignals : RiskSignalsView)
    (customerProfile : CustomerProfileAnalysis) : RiskAssessment :=
  let score := if riskSignals.score = 0 then 30 else riskSignals.score
  let level : RiskTier :=
    if score ≥ 80 then .high
    else if score ≥ 50 then .medium
    else .low
  let level :=
    if customerProfile.riskTier = .high ∧ level = .medium then RiskTier.high else level
  let confidence : ℕ := 70
  let confidence := if riskSignals.reasons.length > 3 then confidence + 15 else confidence
  let confidence := if customerProfile.historicalIncidents = 0 then confidence + 10 else confidence
  let confidence := if customerProfile.transactionPattern = .regular then confidence + 5 else confidence
  { level := level, confidence := min confidence 95 }

/-- The insights step as wired in `generateInsights` (insights-agent.ts
lines 19-47): the context slots are defaulted (`context.recentTx || []`,
`context.riskSignals || { score: 30, reasons: [] }`) and the profile
analysis feeds the risk assessment. -/
def insightsRiskAssessment (recentTxSlot : Option (List InsightsTxn))
    (riskSignalsSlot : Option RiskSignalsView) : RiskAssessment :=
  let transactions := recentTxSlot.getD []
  let riskSignals := riskSignalsSlot.getD { score := 30, reasons := [] }
  generateRiskAssessment riskSignals (analyzeCustomerProfile transactions)

/-! ## Rate limiter (middleware/rateLimit.ts) -/

/-- The JSON value stored under `rate_limit:{clientId}`. -/
structure RateLimitInfo where
  count : ℕ
  resetTime : ℕ
deriving DecidableEq, Repr

/-- What one pass through the middleware yields: whether `next()` was
reached (`allowed`), the `retryAfter` it would report on a 429, and the
info written back to the store. -/
structure RateLimitOutcome where
  allowed : Bool
  retryAfter : ℕ
  newInfo : RateLimitInfo
deriving DecidableEq, Repr

/-- `Math.ceil(d / 1000)` on a non-negative millisecond difference. -/
def ceilDiv1000 (d : ℕ) : ℕ := (d + 999) / 1000

/-- One pass of `rateLimitMiddleware` after a successful store read
(rateLimit.ts lines 19-51).  `now > resetTime` resets the window to
`{count: 1, resetTime: now + windowMs}`; otherwise the counter is
incremented.  The request is blocked exactly when the updated count
exceeds `maxRequests` (line 42). -/
def rateLimitStep (windowMs maxRequests now : ℕ)
    (stored : Option RateLimitInfo) : RateLimitOutcome :=
  let info : RateLimitInfo :=
    match stored with
    | some cur =>
        if now > cur.resetTime then { count := 1, resetTime := now + windowMs }
        else { count := cur.count + 1, resetTime := cur.resetTime }
    | none => { count := 1, resetTime := now + windowMs }
  let retryAfter := ceilDiv1000 (info.resetTime - now)
  { allowed := decide (info.count ≤ maxRequests), retryAfter := retryAfter, newInfo := info }

/-- The middleware including its store-error path (rateLimit.ts lines
52-56): if the backing-store read throws, the request is allowed
("fail open") and nothing is written back. -/
def rateLimitMiddleware (windowMs maxRequests now : ℕ)
    (storeRead : Except Unit (Option RateLimitInfo)) : Bool × Option RateLimitOutcome :=
  match storeRead with
  | .error _ => (true, none)
  | .ok stored =>
      let o := rateLimitStep windowMs maxRequests now stored
      (o.allowed, some o)

/-- Process a sequence of requests at the given timestamps, threading
the stored counter through the middleware. -/
def rateLimitRun (windowMs maxRequests : ℕ) :
    List ℕ → Option RateLimitInfo → List RateLimitOutcome × Option RateLimitInfo
  | [], st => ([], st)
  | t :: ts, st =>
      let o := rateLimitStep windowMs maxRequests t st
      let rest := rateLimitRun windowMs maxRequests ts (some o.newInfo)
      (o :: rest.1, rest.2)

/-! ## Triage orchestrator (agents/orchestrator.ts, `TriageOrchestrator`)

The orchestrator runs the fixed plan sequentially; each step either
succeeds with a result, fails (error or timeout), or is skipped because
its circuit breaker is open.  Those three outcomes are the oracle input
of the model; everything else (trace recording, fallback substitution,
decision composition) is embedded from the source. -/

/-- The six plan steps, in the order built by `buildPlan` (orchestrator.ts
lines 136-146). -/
inductive TriageStep
  | getProfile
  | recentTx
  | riskSignals
  | kbLookup
  | decide
  | proposeAction
deriving DecidableEq, Repr

/-- The fixed plan (orchestrator.ts lines 138-145). -/
def plan : List TriageStep :=
  [.getProfile, .recentTx, .riskSignals, .kbLookup, .decide, .proposeAction]

/-- `isStepCritical` (orchestrator.ts lines 410-412):
`['getProfile', 'recentTx'].includes(step)`. -/
def isStepCritical : TriageStep → Bool
  | .getProfile => true
  | .recentTx => true
  | _ => false

/-- The fraud agent action suggestion carried in a risk-signals result. -/
inductive FraudAction
  | freezeCard
  | openDispute
  | monitor
deriving DecidableEq, Repr

/-- The risk-signals result as consumed by `generateDecision`:
score, reasons, suggested action (`FraudAnalysis` in fraud-agent.ts). -/
structure RiskSignalsVal where
  score : ℚ
  reasons : List String
  action : Option FraudAction
deriving DecidableEq, Repr

/-- The KB lookup result as consumed by `generateDecision`
(`KBSearchResult` in kb-agent.ts): document ids and citations. -/
structure KBVal where
  results : List String
  citations : List String
deriving DecidableEq, Repr

/-- The four terminal actions of a triage decision. -/
inductive ActionType
  | freezeCard
  | openDispute
  | contactCustomer
  | falsePositive
deriving DecidableEq, Repr

/-- The compliance result as consumed by `generateDecision`
(`ComplianceResult` in compliance-agent.ts); its `action` field is
non-optional in the TypeScript interface. -/
structure ComplianceVal where
  action : ActionType
  approved : Bool
deriving DecidableEq, Repr

/-- The insights result slot; only its presence matters to the claims
under study, so the payload is the assessment. -/
structure InsightsVal where
  assessment : RiskAssessment
deriving DecidableEq, Repr

/-- A context slot that may hold either a real step result or the
generic fallback object `{fallback: true, reason: 'Service unavailable'}`
written by `triggerFallback`'s default branch (orchestrator.ts line 306). -/
inductive GSlot (α : Type)
  | value (a : α)
  | fallbackUnavailable
deriving DecidableEq, Repr

/-- The mutable `context` object threaded through `execute`
(orchestrator.ts line 87): one slot per plan step, absent until the step
stores a result.  `riskSignals` and `kbLookup` have dedicated typed
fallbacks in `triggerFallback`, so their slots never hold the generic
marker. -/
structure TriageContext where
  getProfile : Option (GSlot Unit)
  recentTx : Option (GSlot Unit)
  riskSignals : Option RiskSignalsVal
  kbLookup : Option KBVal
  decideStep : Option (GSlot InsightsVal)
  proposeAction : Option (GSlot ComplianceVal)
deriving DecidableEq, Repr

/-- The empty context at the start of `execute`. -/
def TriageContext.empty : TriageContext :=
  { getProfile := none, recentTx := none, riskSignals := none,
    kbLookup := none, decideStep := none, proposeAction := none }

/-- One recorded agent trace: `{seq, step, ok}` (orchestrator.ts lines
207-213 and 238-244; `durationMs` and the redacted `detail` are wall
clock and payload data not touched by the claims). -/
structure TraceRec where
  seq : ℕ
  step : TriageStep
  ok : Bool
deriving DecidableEq, Repr

/-- Outcome of invoking one step's agent: success with a result,
failure (error or timeout), or a skip because the step's circuit
breaker is open. -/
inductive ExecOutcome (α : Type)
  | ok (r : α)
  | failed
  | circuitOpen
deriving DecidableEq, Repr

/-- The oracle describing how each step's agent invocation turns out
during one run. -/
structure TriageBehavior where
  getProfile : ExecOutcome Unit
  recentTx : ExecOutcome Unit
  riskSignals : ExecOutcome RiskSignalsVal
  kbLookup : ExecOutcome KBVal
  decideStep : ExecOutcome InsightsVal
  proposeAction : ExecOutcome ComplianceVal

/-- The orchestrator state accumulated by the `execute` loop: recorded
traces, the `fallbackUsed` flag, and the context. -/
structure RunState where
  traces : List TraceRec
  fallbackUsed : Bool
  ctx : TriageContext
deriving DecidableEq, Repr

/-- The initial run state. -/
def RunState.init : RunState :=
  { traces := [], fallbackUsed := false, ctx := TriageContext.empty }

/-- `executeStep` for one outcome (orchestrator.ts lines 148-265):
an open circuit returns `false` *without recording a trace* (lines
153-160); a success records `{seq, step, ok: true}` and stores the
result in the context (lines 207-216); a failure records
`{seq, step, ok: false}` (lines 238-246).  Returns the `success`
boolean together with the updated state. -/
def runOutcome {α : Type} (o : ExecOutcome α)
    (store : TriageContext → α → TriageContext)
    (st : RunState) (step : TriageStep) (seq : ℕ) : Bool × RunState :=
  match o with
  | .circuitOpen => (false, st)
  | .ok r =>
      (true, { st with
        traces := st.traces ++ [{ seq := seq, step := step, ok := true }],
        ctx := store st.ctx r })
  | .failed =>
      (false, { st with
        traces := st.traces ++ [{ seq := seq, step := step, ok := false }] })

/-- `executeStep` dispatched on the step name (orchestrator.ts lines
165-199): each case invokes its agent and stores the result under
`context[step]`. -/
def executeStep (b : TriageBehavior) (st : RunState) :
    TriageStep → ℕ → Bool × RunState
  | .getProfile, seq =>
      runOutcome b.getProfile
        (fun c _ => { c with getProfile := some (.value ()) }) st .getProfile seq
  | .recentTx, seq =>
      runOutcome b.recentTx
        (fun c _ => { c with recentTx := some (.value ()) }) st .recentTx seq
  | .riskSignals, seq =>
      runOutcome b.riskSignals
        (fun c r => { c with riskSignals := some r }) st .riskSignals seq
  | .kbLookup, seq =>
      runOutcome b.kbLookup
        (fun c r => { c with kbLookup := some r }) st .kbLookup seq
  | .decide, seq =>
      runOutcome b.decideStep
        (fun c r => { c with decideStep := some (.value r) }) st .decide seq
  | .proposeAction, seq =>
      runOutcome b.proposeAction
        (fun c r => { c with proposeAction := some (.value r) }) st .proposeAction seq

/-- `triggerFallback` (orchestrator.ts lines 278-308): sets
`fallbackUsed`, then substitutes the deterministic fallback for the
failed step — the dedicated objects for `riskSignals` and `kbLookup`
(lines 292-304), the generic `{fallback: true, reason: 'Service
unavailable'}` for any other step (line 306). -/
def triggerFallback (st : RunState) (failedStep : TriageStep) : RunState :=
  let st := { st with fallbackUsed := true }
  match failedStep with
  | .riskSignals =>
      { st with ctx := { st.ctx with
        riskSignals := some { score := 50, reasons := ["risk_analysis_unavailable"],
                              action := none } } }
  | .kbLookup =>
      { st with ctx := { st.ctx with
        kbLookup := some { results := [],
                           citations := ["Fallback: Manual review recommended"] } } }
  | .getProfile => { st with ctx := { st.ctx with getProfile := some .fallbackUnavailable } }
  | .recentTx => { st with ctx := { st.ctx with recentTx := some .fallbackUnavailable } }
  | .decide => { st with ctx := { st.ctx with decideStep := some .fallbackUnavailable } }
  | .proposeAction => { st with ctx := { st.ctx with proposeAction := some .fallbackUnavailable } }

/-- The `for` loop of `execute` (orchestrator.ts lines 89-98): run each
step with its plan index as `seq`; when a step fails *and* is critical,
trigger the fallback and break out of the loop. -/
def execLoop (b : TriageBehavior) : ℕ → List TriageStep → RunState → RunState
  | _, [], st => st
  | i, step :: rest, st =>
      let r := executeStep b st step i
      if ¬ r.1 ∧ isStepCritical step then triggerFallback r.2 step
      else execLoop b (i + 1) rest r.2

/-- The run state after executing the full plan from the initial state. -/
def runTriage (b : TriageBehavior) : RunState :=
  execLoop b 0 plan RunState.init

/-- The final triage decision (`TriageResult` fields relevant to the
claims). -/
structure TriageDecision where
  risk : RiskTier
  reasons : List String
  proposedAction : ActionType
  confidence : ℚ
  citations : List String
  fallbackUsed : Bool
deriving DecidableEq, Repr

/-- The `complianceCheck.action` read in `generateDecision` (line 329):
`context.proposeAction || { action: 'contact_customer', approved: true }`
followed by a truthiness test on `.action`.  A missing slot yields the
default's `contact_customer`; a slot holding the generic fallback object
has no `action` field, so the test is falsy and the level-derived branch
runs (this can only happen if `proposeAction` were treated as critical). -/
def complianceActionOf : Option (GSlot ComplianceVal) → Option ActionType
  | some (.value c) => some c.action
  | some .fallbackUnavailable => none
  | none => some .contactCustomer

/-- `generateDecision` (orchestrator.ts lines 310-353): defaults for the
missing slots, score-to-level mapping, high-to-medium demotion under
fallback, the proposed-action if-chain, and the confidence formula
`fallbackUsed ? min(score * 0.7, 70) : score`. -/
def generateDecision (ctx : TriageContext) (fallbackUsed : Bool) : TriageDecision :=
  let riskSignals := ctx.riskSignals.getD { score := 30, reasons := [], action := none }
  let kbResults := ctx.kbLookup.getD { results := [], citations := [] }
  let risk : RiskTier :=
    if riskSignals.score ≥ 80 then .high
    else if riskSignals.score ≥ 50 then .medium
    else .low
  let risk := if fallbackUsed ∧ risk = .high then RiskTier.medium else risk
  let proposedAction : ActionType :=
    match complianceActionOf ctx.proposeAction with
    | some a => a
    | none =>
        if risk = .high then .freezeCard
        else if risk = .medium then .openDispute
        else .falsePositive
  let confidence : ℚ :=
    if fallbackUsed then min (riskSignals.score * (7 / 10)) 70 else riskSignals.score
  { risk := risk, reasons := riskSignals.reasons, proposedAction := proposedAction,
    confidence := confidence, citations := kbResults.citations,
    fallbackUsed := fallbackUsed }

/-- `execute` end to end: run the plan, then compose the decision
(orchestrator.ts lines 100-101). -/
def executeTriage (b : TriageBehavior) : TriageDecision :=
  let st := runTriage b
  generateDecision st.ctx st.fallbackUsed

/-- A behavior in which every step succeeds (results chosen concretely). -/
def behaviorAllOk : TriageBehavior :=
  { getProfile := .ok ()
    recentTx := .ok ()
    riskSignals := .ok { score := 15, reasons := ["Transaction at unusual time"], action := some .monitor }
    kbLookup := .ok { results := [], citations := [] }
    decideStep := .ok { assessment := { level := .low, confidence := 80 } }
    proposeAction := .ok { action := .contactCustomer, approved := true } }

/-- A behavior in which only the non-critical `riskSignals` step fails. -/
def behaviorRiskFails : TriageBehavior :=
  { behaviorAllOk with riskSignals := .failed }

/-- A behavior in which the `kbLookup` step is skipped because its
circuit breaker is open, and every other step succeeds. -/
def behaviorKbCircuitOpen : TriageBehavior :=
  { behaviorAllOk with kbLookup := .circuitOpen }

/-- A behavior in which the critical `getProfile` step fails. -/
def behaviorProfileFails : TriageBehavior :=
  { behaviorAllOk with getProfile := .failed }

/-- No step of the behavior reports an open circuit. -/
def noCircuitOpen (b : TriageBehavior) : Prop :=
  b.getProfile ≠ .circuitOpen ∧ b.recentTx ≠ .circuitOpen ∧
  b.riskSignals ≠ .circuitOpen ∧ b.kbLookup ≠ .circuitOpen ∧
  b.decideStep ≠ .circuitOpen ∧ b.proposeAction ≠ .circuitOpen

instance (b : TriageBehavior) : Decidable (noCircuitOpen b) := by
  unfold noCircuitOpen; infer_instance

/-! ## Action executor: contact-customer route and OTP verification
(routes/insights.ts, action endpoints) -/

/-- The `Case.type` values used by the action routes. -/
inductive CaseType
  | cardFreeze
  | dispute
  | contactCustomer
  | falsePositive
deriving DecidableEq, Repr

/-- A `Case` row as created by the action routes. -/
structure CaseRow where
  id : ℕ
  customerId : String
  txnId : Option String
  caseType : CaseType
  status : String
  reasonCode : String
deriving DecidableEq, Repr

/-- A `CaseEvent` row. -/
structure CaseEventRow where
  caseId : ℕ
  actor : String
  action : String
deriving DecidableEq, Repr

/-- The persistent state touched by the contact-customer route: case and
case-event tables (with a sequential id counter standing in for UUID
generation), alert statuses, and the idempotency result cache that the
other action routes keep in the key/value store. -/
structure ActionDb where
  cases : List CaseRow
  caseEvents : List CaseEventRow
  alertStatuses : List (String × String)
  idemCache : List (String × String)
  nextCaseId : ℕ
deriving DecidableEq, Repr

/-- The empty action-executor state. -/
def ActionDb.empty : ActionDb :=
  { cases := [], caseEvents := [], alertStatuses := [], idemCache := [], nextCaseId := 0 }

/-- The response payload of the contact-customer route (line 340):
`{success, message, requestId, caseId}`, with the per-request
`requestId` omitted (it is a fresh UUID on every call). -/
structure ContactResponse where
  success : Bool
  message : String
  caseId : ℕ
deriving DecidableEq, Repr

/-- Update an association list entry if the key is present. -/
def setIfPresent (k v : String) : List (String × String) → List (String × String)
  | [] => []
  | (k0, v0) :: rest =>
      if k0 = k then (k0, v) :: rest else (k0, v0) :: setIfPresent k v rest

/-- `POST /contact-customer` (insights.ts lines 289-345).  The handler
creates a `CONTACT_CUSTOMER` case (status CLOSED, reason
CUSTOMER_CONTACTED), appends a `CUSTOMER_CONTACTED` event, marks the
alert `CONTACTED` (ignoring a missing alert), and returns the fresh case
id.  The route never reads the `Idempotency-Key` header and never
consults or writes the idempotency cache; the `idemKey` parameter is
threaded only so the claim about the header can be stated, and is unused
by the body, exactly as in the source. -/
def contactCustomer (alertId customerId : String) (suspectTxnId : Option String)
    (userId : String) (_idemKey : Option String) (db : ActionDb) :
    ContactResponse × ActionDb :=
  let caseId := db.nextCaseId
  let caseRecord : CaseRow :=
    { id := caseId, customerId := customerId, txnId := suspectTxnId,
      caseType := .contactCustomer, status := "CLOSED",
      reasonCode := "CUSTOMER_CONTACTED" }
  let eventRecord : CaseEventRow :=
    { caseId := caseId, actor := userId, action := "CUSTOMER_CONTACTED" }
  let db :=
    { db with
      cases := db.cases ++ [caseRecord],
      caseEvents := db.caseEvents ++ [eventRecord],
      alertStatuses := setIfPresent alertId "CONTACTED" db.alertStatuses,
      nextCaseId := caseId + 1 }
  ({ success := true, message := "Customer contact initiated and logged", caseId := caseId }, db)

/-- The short-lived key/value store that the specification says holds
one-time passwords under `otp:{cardId}`. -/
def OtpStore := List (String × String)
deriving DecidableEq, Repr

/-- `generateOTP` (insights.ts lines 724-726): the constant string. -/
def generateOTP : String := "123456"

/-- `verifyOTP` (insights.ts lines 728-741).  The source compares the
provided code against the hard-coded constant `"123456"`; it never reads
the key/value store and never deletes anything on success (the
"delete OTP after successful verification" comment, line 734, is
followed only by a log call).  The store is threaded through unchanged
so that the claim about `otp:{cardId}` consumption can be stated. -/
def verifyOTP (_cardId providedOTP : String) (store : OtpStore) : Bool × OtpStore :=
  let storedOTP := "123456"
  (storedOTP = providedOTP, store)

/-! ## PII redactor (utils/redactor.ts)

`redactText` applies three global regex replacements in order:

* PAN: `/\b\d{13,19}\b/g` → `'****REDACTED****'`
* email: `/\b[A-Za-z0-9._%+-]+@[A-Za-z0-9.-]+\.[A-Z|a-z]{2,}\b/g` with the
  local part masked to its first two characters plus `***`
* phone: `/(\+?1[-.\s]?)?\(?([0-9]{3})\)?[-.\s]?([0-9]{3})[-.\s]?([0-9]{4})/g`
  → `'***-***-****'`

The scanners below implement the leftmost-match, greedy-with-backtracking
semantics of those three patterns over `List Char`; replacements are not
rescanned within a pass, and the boundary context of the continuation is
the original character preceding it, as in a real regex engine.  Each
scanner carries fuel bounded by the input length, which suffices since
every recursive call consumes at least one input character. -/

/-- A regex word character `\w` = `[A-Za-z0-9_]` (ASCII inputs). -/
def isWordCh (c : Char) : Bool := c.isAlphanum || c = '_'

/-- Word-ness of the character left of the scan position; the absent
character (string start) counts as non-word. -/
def wordOpt : Option Char → Bool
  | none => false
  | some c => isWordCh c

/-- `\b` between an optional left character and a present right one. -/
def boundaryBetween (prev : Option Char) (c : Char) : Bool :=
  wordOpt prev != isWordCh c

/-- The fixed PAN replacement. -/
def panReplacement : List Char := "****REDACTED****".data

/-- One pass of the PAN replacement `/\b\d{13,19}\b/g`.  A match is a
maximal digit run of length 13-19 whose left neighbour is non-word (or
the start) and whose right neighbour is non-word (or the end); greedy
backtracking inside a longer or letter-flanked run never succeeds
because every shorter candidate is followed by a word character. -/
def panScanF : ℕ → Option Char → List Char → List Char
  | 0, _, cs => cs
  | _ + 1, _, [] => []
  | fuel + 1, prev, c :: cs =>
      if c.isDigit && !wordOpt prev then
        let run := (c :: cs).takeWhile Char.isDigit
        let rest := (c :: cs).dropWhile Char.isDigit
        if 13 ≤ run.length && run.length ≤ 19 &&
            (match rest.head? with
             | none => true
             | some d => !isWordCh d) then
          panReplacement ++ panScanF fuel (some (run.getLastD c)) rest
        else
          c :: panScanF fuel (some c) cs
      else
        c :: panScanF fuel (some c) cs

/-- The local-part character class `[A-Za-z0-9._%+-]`. -/
def isLocalCh (c : Char) : Bool :=
  c.isAlphanum || c = '.' || c = '_' || c = '%' || c = '+' || c = '-'

/-- The domain character class `[A-Za-z0-9.-]`. -/
def isDomainCh (c : Char) : Bool := c.isAlphanum || c = '.' || c = '-'

/-- The top-level-domain class `[A-Z|a-z]`: letters and, literally, the
bar character. -/
def isTldCh (c : Char) : Bool := c.isAlpha || c = '|'

/-- Greedy search for the length of `[A-Z|a-z]{2,}\b` inside `src`:
try the longest prefix of the maximal TLD-character run first, shrinking
while the trailing `\b` fails.  `src.get? m` is the character following
the `m` kept characters. -/
def tldPick (src tldRun : List Char) : ℕ → Option ℕ
  | 0 => none
  | 1 => none
  | m + 2 =>
      match tldRun.get? (m + 1) with
      | none => tldPick src tldRun (m + 1)
      | some last =>
          if isWordCh last != wordOpt (src.get? (m + 2)) then some (m + 2)
          else tldPick src tldRun (m + 1)

/-- Backtracking for `[A-Za-z0-9.-]+\.[A-Z|a-z]{2,}\b` given the maximal
domain-character run `dom` and the remainder `afterDom`: try the dot
positions inside `dom` from right to left (the greedy `+`), and for each
run the TLD search on the characters after the dot.  Returns the domain
length `k` (before the dot) and the TLD length `m`. -/
def emailDomainSearch (dom afterDom : List Char) : Option (ℕ × ℕ) :=
  let idxs := ((List.range dom.length).filter
    (fun i => decide (1 ≤ i) && (dom.get? i == some '.'))).reverse
  idxs.findSome? (fun k =>
    let src := dom.drop (k + 1) ++ afterDom
    let tldRun := src.takeWhile isTldCh
    (tldPick src tldRun tldRun.length).map (fun m => (k, m)))

/-- Try the email pattern at the head of `cs` (the caller has already
checked `\b`).  The local part must be the maximal run of local
characters (a shorter run would be followed by a local character, not
`@`), then `@`, then the domain/TLD search.  Returns the total number of
characters consumed. -/
def tryEmailAt (cs : List Char) : Option ℕ :=
  let loc := cs.takeWhile isLocalCh
  if loc.length = 0 then none
  else
    match cs.dropWhile isLocalCh with
    | '@' :: afterAt =>
        let dom := afterAt.takeWhile isDomainCh
        let afterDom := afterAt.dropWhile isDomainCh
        (emailDomainSearch dom afterDom).map
          (fun km => loc.length + 1 + km.1 + 1 + km.2)
    | _ => none

/-- The email replacement (redactor.ts lines 51-62): split the match at
its unique `@`; a local part longer than two characters keeps its first
two characters plus `***`, otherwise it becomes `***`; the domain is
kept. -/
def emailMask (matched : List Char) : List Char :=
  let localPart := matched.takeWhile (fun c => c ≠ '@')
  let domainPart := matched.dropWhile (fun c => c ≠ '@')
  let maskedLocal :=
    if localPart.length > 2 then localPart.take 2 ++ "***".data else "***".data
  maskedLocal ++ domainPart

/-- One pass of the email replacement. -/
def emailScanF : ℕ → Option Char → List Char → List Char
  | 0, _, cs => cs
  | _ + 1, _, [] => []
  | fuel + 1, prev, c :: cs =>
      if boundaryBetween prev c then
        match tryEmailAt (c :: cs) with
        | some n =>
            let matched := (c :: cs).take n
            emailMask matched ++
              emailScanF fuel (some (matched.getLastD c)) ((c :: cs).drop n)
        | none => c :: emailScanF fuel (some c) cs
      else
        c :: emailScanF fuel (some c) cs

/-- The separator class `[-.\s]`. -/
def isSepCh (c : Char) : Bool :=
  c = '-' || c = '.' || c = ' ' || c = '\t' || c = '\n' || c = '\r'

/-- Consume exactly `n` digits. -/
def digitsN : ℕ → List Char → Option (List Char)
  | 0, cs => some cs
  | _ + 1, [] => none
  | n + 1, c :: cs => if c.isDigit then digitsN n cs else none

/-- Consume one optional character matching `p` (greedy; for the phone
pattern, declining a present optional character can never rescue a
failed parse, since what follows it would then have to be a digit). -/
def optChar (p : Char → Bool) : List Char → List Char
  | [] => []
  | c :: cs => if p c then cs else c :: cs

/-- The mandatory tail of the phone pattern:
`\(?([0-9]{3})\)?[-.\s]?([0-9]{3})[-.\s]?([0-9]{4})`. -/
def phoneCore (cs : List Char) : Option (List Char) := do
  let cs := optChar (fun c => c = '(') cs
  let cs ← digitsN 3 cs
  let cs := optChar (fun c => c = ')') cs
  let cs := optChar isSepCh cs
  let cs ← digitsN 3 cs
  let cs := optChar isSepCh cs
  digitsN 4 cs

/-- The full phone pattern at the head of `cs`, with the optional
country group `(\+?1[-.\s]?)?` tried greedily first; returns the rest
after the match. -/
def phoneMatchAt (cs : List Char) : Option (List Char) :=
  (match cs with
   | '+' :: '1' :: rest => phoneCore (optChar isSepCh rest)
   | _ => none) <|>
  (match cs with
   | '1' :: rest => phoneCore (optChar isSepCh rest)
   | _ => none) <|>
  phoneCore cs

/-- The fixed phone replacement. -/
def phoneReplacement : List Char := "***-***-****".data

/-- One pass of the phone replacement (the pattern has no boundary
assertions, so no left context is needed). -/
def phoneScanF : ℕ → List Char → List Char
  | 0, cs => cs
  | _ + 1, [] => []
  | fuel + 1, c :: cs =>
      match phoneMatchAt (c :: cs) with
      | some rest => phoneReplacement ++ phoneScanF fuel rest
      | none => c :: phoneScanF fuel cs

/-- `Redactor.redactText` (redactor.ts lines 34-75): PAN, then email,
then phone replacement.  The accompanying `masked` boolean of the source
is not modelled; the claims are about the cleaned text. -/
def redactText (s : String) : String :=
  let cs := s.data
  let cs := panScanF (cs.length + 1) none cs
  let cs := emailScanF (cs.length + 1) none cs
  let cs := phoneScanF (cs.length + 1) cs
  String.mk cs

/-- `Redactor.maskCustomerId` (redactor.ts lines 112-117): ids shorter
than eight characters (or empty) become the fixed placeholder, longer
ones keep their first four and last two characters around `***`. -/
def maskCustomerId (customerId : String) : String :=
  if customerId.length < 8 then "***masked***"
  else customerId.take 4 ++ "***" ++ customerId.takeRight 2

/-- A JSON-like value, the input type of `redactObject`. -/
inductive JVal
  | str (s : String)
  | num (q : ℚ)
  | bool (b : Bool)
  | null
  | arr (l : List JVal)
  | obj (l : List (String × JVal))
deriving Repr

mutual

/-- `Redactor.redactObject` (redactor.ts lines 78-109): strings are
redacted with `redactText`, arrays and objects are traversed (values
only; keys are kept), all other leaves are copied. -/
def redactValue : JVal → JVal
  | .str s => .str (redactText s)
  | .num q => .num q
  | .bool b => .bool b
  | .null => .null
  | .arr l => .arr (redactValueList l)
  | .obj l => .obj (redactValuePairs l)

/-- Traverse an array value. -/
def redactValueList : List JVal → List JVal
  | [] => []
  | v :: vs => redactValue v :: redactValueList vs

/-- Traverse an object value. -/
def redactValuePairs : List (String × JVal) → List (String × JVal)
  | [] => []
  | (k, v) :: kvs => (k, redactValue v) :: redactValuePairs kvs

end

/-! ## KB agent: snippet extraction and result ranking (kb-agent.ts) -/

/-- First index at which `needle` occurs in `hay` (JavaScript
`String.indexOf`), or `none`. -/
def firstIndexOfAux (needle : List Char) : List Char → ℕ → Option ℕ
  | [], i => if needle.isEmpty then some i else none
  | h :: t, i =>
      if needle.isPrefixOf (h :: t) then some i else firstIndexOfAux needle t (i + 1)

/-- `hay.indexOf needle` as an option. -/
def firstIndexOf (hay needle : List Char) : Option ℕ := firstIndexOfAux needle hay 0

/-- The `bestIndex` of `KBAgent.extractSnippet` (kb-agent.ts lines
462-471): the smallest first occurrence in the lowercased text of any
space-separated lowercased query word longer than two characters, if
any. -/
def snippetBestIndex (text query : List Char) : Option ℕ :=
  let lowerText := text.map Char.toLower
  let queryTerms := ((query.map Char.toLower).splitOn ' ').filter (fun t => t.length > 2)
  (queryTerms.filterMap (fun t => firstIndexOf lowerText t)).min?

/-- The matched branch of `extractSnippet` (kb-agent.ts lines 477-487):
a window of at most `maxLength` characters around the match, with an
ellipsis glued to each trimmed end.  `Math.max(0, ...)` is natural
subtraction. -/
def snippetWindow (text : List Char) (bestIndex maxLength : ℕ) : List Char :=
  let padding := (maxLength - 20) / 2
  let start := bestIndex - padding
  let stop := min text.length (start + maxLength)
  let snippet := (text.drop start).take (stop - start)
  let snippet := if 0 < start then "...".data ++ snippet else snippet
  if stop < text.length then snippet ++ "...".data else snippet

/-- `KBAgent.extractSnippet` (kb-agent.ts lines 461-488) over character
lists.  With no occurrence of any query term the snippet is the first
`maxLength` characters plus a trailing ellipsis when the text is
longer; otherwise it is the window around the first match. -/
def extractSnippetL (text query : List Char) (maxLength : ℕ) : List Char :=
  match snippetBestIndex text query with
  | none =>
      text.take maxLength ++ (if maxLength < text.length then "...".data else [])
  | some bestIndex => snippetWindow text bestIndex maxLength

/-- `extractSnippet` on strings, as invoked with `maxLength = 150`
(kb-agent.ts line 355). -/
def extractSnippet (text query : String) (maxLength : ℕ) : String :=
  String.mk (extractSnippetL text.data query.data maxLength)

/-- A stored KB document. -/
structure KbDocRec where
  id : String
  title : String
  anchor : String
  contentText : String
deriving DecidableEq, Repr

/-- One entry of the KB search response. -/
structure KBResultRow where
  docId : String
  title : String
  anchor : String
  extract : String
  relevanceScore : ℕ
deriving DecidableEq, Repr

/-- Count of non-overlapping occurrences of `needle` in `hay`, scanned
left to right: `(text.match(new RegExp(term, 'g')) || []).length` for
the plain-word terms the agent produces. -/
def countOccur (needle : List Char) : List Char → ℕ
  | [] => 0
  | h :: t =>
      if hp : needle ≠ [] ∧ needle.isPrefixOf (h :: t) then
        1 + countOccur needle ((h :: t).drop needle.length)
      else
        countOccur needle t
termination_by l => l.length
decreasing_by
  · simp only [List.length_drop]
    have : 1 ≤ needle.length := by
      cases hn : needle with
      | nil => exact absurd hn hp.1
      | cons a l => simp
    simp only [List.length_cons]
    omega
  · simp

/-- `KBAgent.calculateRelevance` (kb-agent.ts lines 445-459): per term,
three points per occurrence in the lowercased title plus one per
occurrence in the lowercased body, summed over the search terms. -/
def calculateRelevance (doc : KbDocRec) (searchTerms : List String) : ℕ :=
  let title := doc.title.data.map Char.toLower
  let content := doc.contentText.data.map Char.toLower
  searchTerms.foldl
    (fun score term =>
      score + (countOccur (term.data.map Char.toLower) title) * 3 +
        countOccur (term.data.map Char.toLower) content)
    0

/-- Score one fetched document (kb-agent.ts lines 353-364). -/
def scoreDoc (searchTerms : List String) (query : String) (doc : KbDocRec) : KBResultRow :=
  { docId := doc.id, title := doc.title, anchor := doc.anchor,
    extract := extractSnippet doc.contentText query 150,
    relevanceScore := calculateRelevance doc searchTerms }

/-- The result pipeline of `searchRelevantDocs` (kb-agent.ts lines
365-367): drop zero-relevance rows, sort by descending relevance
(a stable sort, as `Array.prototype.sort`), keep the first five. -/
def rankResults (rows : List KBResultRow) : List KBResultRow :=
  ((rows.filter (fun r => 0 < r.relevanceScore)).mergeSort
    (fun a b => decide (b.relevanceScore ≤ a.relevanceScore))).take 5

/-- The response rows of `searchRelevantDocs` for a fetched batch of
documents. -/
def searchResults (searchTerms : List String) (query : String)
    (docs : List KbDocRec) : List KBResultRow :=
  rankResults (docs.map (scoreDoc searchTerms query))

/-! ## Theorems -/

/-- `triggerFallback` touches only the flag and the context. -/
theorem triggerFallback_traces (st : RunState) (s : TriageStep) :
    (triggerFallback st s).traces = st.traces := by
  cases s <;> rfl

/-- A step execution either records no trace (open circuit) or appends
exactly one trace carrying its sequence number. -/
theorem runOutcome_traces {α : Type} (o : ExecOutcome α)
    (store : TriageContext → α → TriageContext) (st : RunState)
    (step : TriageStep) (seq : ℕ) :
    (runOutcome o store st step seq).2.traces = st.traces ∨
    ∃ okb, (runOutcome o store st step seq).2.traces
      = st.traces ++ [{ seq := seq, step := step, ok := okb }] := by
  cases o with
  | ok r => exact .inr ⟨true, rfl⟩
  | failed => exact .inr ⟨false, rfl⟩
  | circuitOpen => exact .inl rfl

/-- Without an open circuit, a step execution appends exactly one trace. -/
theorem runOutcome_traces_of_ne {α : Type} (o : ExecOutcome α)
    (store : TriageContext → α → TriageContext) (st : RunState)
    (step : TriageStep) (seq : ℕ) (h : o ≠ .circuitOpen) :
    ∃ okb, (runOutcome o store st step seq).2.traces
      = st.traces ++ [{ seq := seq, step := step, ok := okb }] := by
  cases o with
  | ok r => exact ⟨true, rfl⟩
  | failed => exact ⟨false, rfl⟩
  | circuitOpen => exact absurd rfl h

/-- `executeStep` in the shape of `runOutcome_traces`. -/
theorem executeStep_traces (b : TriageBehavior) (st : RunState)
    (s : TriageStep) (i : ℕ) :
    (executeStep b st s i).2.traces = st.traces ∨
    ∃ okb, (executeStep b st s i).2.traces
      = st.traces ++ [{ seq := i, step := s, ok := okb }] := by
  cases s <;> exact runOutcome_traces _ _ _ _ _

/-- With no open circuit anywhere, every executed step appends one trace. -/
theorem executeStep_traces_of_noCircuit (b : TriageBehavior) (st : RunState)
    (s : TriageStep) (i : ℕ) (h : noCircuitOpen b) :
    ∃ okb, (executeStep b st s i).2.traces
      = st.traces ++ [{ seq := i, step := s, ok := okb }] := by
  obtain ⟨h1, h2, h3, h4, h5, h6⟩ := h
  cases s
  · exact runOutcome_traces_of_ne _ _ _ _ _ h1
  · exact runOutcome_traces_of_ne _ _ _ _ _ h2
  · exact runOutcome_traces_of_ne _ _ _ _ _ h3
  · exact runOutcome_traces_of_ne _ _ _ _ _ h4
  · exact runOutcome_traces_of_ne _ _ _ _ _ h5
  · exact runOutcome_traces_of_ne _ _ _ _ _ h6

/-- Appending one larger element keeps a `<`-chain. -/
theorem chain_lt_append_singleton {l : List ℕ} {x : ℕ}
    (hl : List.Chain' (· < ·) l) (hx : ∀ y ∈ l, y < x) :
    List.Chain' (· < ·) (l ++ [x]) := by
  rw [List.chain'_append]
  refine ⟨hl, List.chain'_singleton x, ?_⟩
  intro a ha y hy
  simp only [List.head?_cons, Option.mem_def, Option.some.injEq] at hy
  subst hy
  exact hx a (List.mem_of_mem_getLast? ha)

/-- Sequence numbers of the traces recorded by the execution loop form a
strictly increasing chain, whatever the step outcomes. -/
theorem execLoop_seq_chain (b : TriageBehavior) :
    ∀ (steps : List TriageStep) (i : ℕ) (st : RunState),
    (∀ t ∈ st.traces, t.seq < i) →
    List.Chain' (· < ·) (st.traces.map (·.seq)) →
    List.Chain' (· < ·) ((execLoop b i steps st).traces.map (·.seq)) := by
  intro steps
  induction steps with
  | nil => intro i st _ h2; simpa [execLoop] using h2
  | cons s rest ih =>
    intro i st h1 h2
    have hstep := executeStep_traces b st s i
    have hch : List.Chain' (· < ·) ((executeStep b st s i).2.traces.map (·.seq)) := by
      rcases hstep with h | ⟨okb, h⟩
      · rw [h]; exact h2
      · rw [h, List.map_append]
        exact chain_lt_append_singleton h2 (by
          intro y hy
          simp only [List.mem_map] at hy
          obtain ⟨t, ht, rfl⟩ := hy
          exact h1 t ht)
    have hbound : ∀ t ∈ (executeStep b st s i).2.traces, t.seq < i + 1 := by
      intro t ht
      rcases hstep with h | ⟨okb, h⟩
      · rw [h] at ht; exact Nat.lt_succ_of_lt (h1 t ht)
      · rw [h] at ht
        rcases List.mem_append.mp ht with h' | h'
        · exact Nat.lt_succ_of_lt (h1 t h')
        · simp only [List.mem_singleton] at h'
          subst h'
          exact Nat.lt_succ_self i
    simp only [execLoop]
    split
    · rw [triggerFallback_traces]; exact hch
    · exact ih (i + 1) _ hbound hch

/-- With no open circuit, the loop appends one trace per processed step,
numbering them consecutively from the starting index (the loop may stop
early on a critical failure). -/
theorem execLoop_seqs_range (b : TriageBehavior) (h : noCircuitOpen b) :
    ∀ (steps : List TriageStep) (i : ℕ) (st : RunState),
    ∃ k, (execLoop b i steps st).traces.map (·.seq)
      = st.traces.map (·.seq) ++ List.range' i k := by
  intro steps
  induction steps with
  | nil => intro i st; exact ⟨0, by simp [execLoop]⟩
  | cons s rest ih =>
    intro i st
    obtain ⟨okb, htr⟩ := executeStep_traces_of_noCircuit b st s i h
    simp only [execLoop]
    split
    · refine ⟨1, ?_⟩
      rw [triggerFallback_traces, htr]
      simp [List.range']
    · obtain ⟨k, hk⟩ := ih (i + 1) (executeStep b st s i).2
      refine ⟨k + 1, ?_⟩
      rw [hk, htr]
      simp [List.range', List.map_append]

/-- Claim C1: on the failure of the non-critical `riskSignals` step the
orchestrator neither sets `fallbackUsed` nor substitutes the
deterministic `{score: 50, reasons: ['risk_analysis_unavailable']}`
fallback: `triggerFallback` runs only when a *critical* step fails
(orchestrator.ts line 93), so the run completes with `fallbackUsed =
false`, an untouched `riskSignals` slot, and a recorded failing trace
for a non-critical step — contradicting the claimed equivalence. -/
theorem c1_nonCriticalFailureLeavesFallbackUnset :
    (runTriage behaviorRiskFails).fallbackUsed = false ∧
    (runTriage behaviorRiskFails).ctx.riskSignals = none ∧
    (runTriage behaviorRiskFails).traces.map (fun t => (t.step, t.ok)) =
      [(.getProfile, true), (.recentTx, true), (.riskSignals, false),
       (.kbLookup, true), (.decide, true), (.proposeAction, true)] ∧
    isStepCritical .riskSignals = false := by
  refine ⟨rfl, rfl, rfl, rfl⟩

/-- Claim C2, counterexample: when a non-critical step is skipped
because its circuit breaker is open, `executeStep` records no trace for
it (orchestrator.ts lines 153-160), so the run's sequence numbers are
`[0, 1, 2, 4, 5]` — not a contiguous prefix. -/
theorem c2_circuitOpenSkipLeavesGap :
    (runTriage behaviorKbCircuitOpen).traces.map (·.seq) = [0, 1, 2, 4, 5] ∧
    ¬ ((runTriage behaviorKbCircuitOpen).traces.map (·.seq)
        = List.range ((runTriage behaviorKbCircuitOpen).traces.length)) := by
  exact ⟨rfl, by decide⟩

/-- Claim C2, amended: trace `seq` values are strictly increasing, each
equal to its step's plan index, and they form the contiguous prefix
`0..n-1` whenever no step of the run is skipped by an open circuit
breaker; a circuit-open skip contributes no trace and leaves a gap at
its plan position. -/
theorem c2_seqStrictMonoContiguousWithoutCircuitOpen (b : TriageBehavior) :
    List.Chain' (· < ·) ((runTriage b).traces.map (·.seq)) ∧
    (noCircuitOpen b →
      (runTriage b).traces.map (·.seq)
        = List.range ((runTriage b).traces.length)) := by
  constructor
  · exact execLoop_seq_chain b plan 0 RunState.init (by simp [RunState.init])
      (by simp [RunState.init])
  · intro h
    obtain ⟨k, hk⟩ := execLoop_seqs_range b h plan 0 RunState.init
    simp only [RunState.init, List.map_nil, List.nil_append] at hk
    have hlen : (runTriage b).traces.length = k := by
      have := congrArg List.length hk
      simpa [runTriage, RunState.init] using this
    rw [hlen]
    simpa [runTriage, RunState.init, List.range_eq_range'] using hk

/-- Witness for the amended claim C2 at a run with every step
succeeding. -/
theorem c2_seqContiguous_witness :
    (runTriage behaviorAllOk).traces.map (·.seq)
      = List.range ((runTriage behaviorAllOk).traces.length) :=
  (c2_seqStrictMonoContiguousWithoutCircuitOpen behaviorAllOk).2 (by decide)

/-- Claim C3, counterexample: when the critical `getProfile` step fails,
the run short-circuits with no `proposeAction` result, and
`generateDecision` uses the default `{action: 'contact_customer'}`
(orchestrator.ts line 314) — so the final action is `contact_customer`,
not the claimed `false_positive`, although the composed risk is indeed
the low default and `fallbackUsed` is set. -/
theorem c3_shortCircuitYieldsContactCustomer :
    (executeTriage behaviorProfileFails).proposedAction = .contactCustomer ∧
    (executeTriage behaviorProfileFails).risk = .low ∧
    (executeTriage behaviorProfileFails).fallbackUsed = true ∧
    ActionType.contactCustomer ≠ ActionType.falsePositive := by
  refine ⟨rfl, rfl, rfl, by decide⟩

/-- Claim C3, amended: the final `proposedAction` equals the
ProposeAction step's action whenever that step stored a result; when the
slot is absent (failed step, skipped step, or short-circuit before it),
the default compliance object supplies `contact_customer`; in
particular, a run whose critical `getProfile` step fails ends with
`proposedAction = contact_customer`.  (The level-derived mapping of the
original claim is reachable only from a fallback-substituted
`proposeAction` slot, which no run produces, since that step is
non-critical.) -/
theorem c3_proposedActionComposition :
    (∀ (ctx : TriageContext) (fb : Bool) (c : ComplianceVal),
      ctx.proposeAction = some (.value c) →
      (generateDecision ctx fb).proposedAction = c.action) ∧
    (∀ (ctx : TriageContext) (fb : Bool),
      ctx.proposeAction = none →
      (generateDecision ctx fb).proposedAction = .contactCustomer) ∧
    (∀ b : TriageBehavior, b.getProfile = .failed →
      (executeTriage b).proposedAction = .contactCustomer) := by
  refine ⟨?_, ?_, ?_⟩
  · intro ctx fb c h
    simp [generateDecision, complianceActionOf, h]
  · intro ctx fb h
    simp [generateDecision, complianceActionOf, h]
  · intro b hb
    simp [executeTriage, runTriage, plan, execLoop, executeStep, hb, runOutcome,
      isStepCritical, triggerFallback, RunState.init, TriageContext.empty,
      generateDecision, complianceActionOf]

/-- Witness for the amended claim C3 at concrete contexts and a concrete
failing behavior. -/
theorem c3_proposedActionComposition_witness :
    (generateDecision
        { TriageContext.empty with
            proposeAction := some (.value { action := .freezeCard, approved := true }) }
        false).proposedAction = ActionType.freezeCard ∧
    (generateDecision TriageContext.empty false).proposedAction
      = ActionType.contactCustomer ∧
    (executeTriage behaviorProfileFails).proposedAction
      = ActionType.contactCustomer :=
  ⟨c3_proposedActionComposition.1 _ false { action := .freezeCard, approved := true } rfl,
   c3_proposedActionComposition.2.1 TriageContext.empty false rfl,
   c3_proposedActionComposition.2.2 behaviorProfileFails rfl⟩

/-- Claim C4: replaying `contact_customer` with the same
`Idempotency-Key` is *not* idempotent — the route never reads the header
(insights.ts lines 289-345 contain no idempotency lookup), so the second
call creates a second `Case` row and a second `CaseEvent` row and
returns a different `caseId`, contradicting the claimed structural
equality of responses and absence of re-execution. -/
theorem c4_contactCustomerReplayNotIdempotent :
    ((contactCustomer "alert_1" "cust_1" none "user_1" (some "K")
        ((contactCustomer "alert_1" "cust_1" none "user_1" (some "K")
          ActionDb.empty).2)).1.caseId
      ≠ (contactCustomer "alert_1" "cust_1" none "user_1" (some "K")
          ActionDb.empty).1.caseId) ∧
    ((contactCustomer "alert_1" "cust_1" none "user_1" (some "K")
        ((contactCustomer "alert_1" "cust_1" none "user_1" (some "K")
          ActionDb.empty).2)).2.cases.length = 2) ∧
    ((contactCustomer "alert_1" "cust_1" none "user_1" (some "K")
        ((contactCustomer "alert_1" "cust_1" none "user_1" (some "K")
          ActionDb.empty).2)).2.caseEvents.length = 2) := by
  refine ⟨by decide, rfl, rfl⟩

/-- Claim C5: `verifyOTP` compares the provided code against the
hard-coded constant `"123456"` (insights.ts line 729); the store under
`otp:{cardId}` is never read and never deleted, so the same code
verifies repeatedly (no at-most-once consumption) even while the store
holds a different code for the card. -/
theorem c5_otpReusableAndStoreUntouched :
    ((verifyOTP "card_1" "123456" [("otp:card_1", "654321")]).1 = true) ∧
    ((verifyOTP "card_1" "123456"
        ((verifyOTP "card_1" "123456" [("otp:card_1", "654321")]).2)).1 = true) ∧
    ((verifyOTP "card_1" "123456" [("otp:card_1", "654321")]).2
      = [("otp:card_1", "654321")]) ∧
    ((verifyOTP "card_1" "000000" [("otp:card_1", "000000")]).1 = false) := by
  refine ⟨by decide, by decide, rfl, by decide⟩

/-- Claim C6: redaction is not idempotent.  On
`"ab@cd.ef1234567890123"` the first pass replaces the phone-shaped run
`12345678901`, which turns the character after `ef` into `*` and makes
the email pattern's trailing `\b` hold on the second pass, so the second
pass additionally masks `ab@cd.ef`.  The customer-id mask is likewise
non-idempotent below eight characters: `***masked***` re-masks to
`***m*****`. -/
theorem c6_redactNotIdempotent :
    redactText "ab@cd.ef1234567890123" = "ab@cd.ef***-***-****23" ∧
    redactText (redactText "ab@cd.ef1234567890123") = "***@cd.ef***-***-****23" ∧
    redactText (redactText "ab@cd.ef1234567890123")
      ≠ redactText "ab@cd.ef1234567890123" ∧
    maskCustomerId "short" = "***masked***" ∧
    maskCustomerId (maskCustomerId "short") ≠ maskCustomerId "short" ∧
    redactValue (redactValue (.str "ab@cd.ef1234567890123"))
      ≠ redactValue (.str "ab@cd.ef1234567890123") := by
  refine ⟨by decide, by decide, by decide, by decide, by decide, ?_⟩
  intro h
  simp only [redactValue, JVal.str.injEq] at h
  exact absurd h (by decide)

/-- Claim C7, counterexample: for a suspect transaction at a new
merchant (merchant risk 15) with every other predicate false, the code
returns `Math.round(7.5) = 8`, while the claimed clamped sum is `15/2`
— the source rounds the sum to the nearest integer before clamping,
which the claim omits. -/
theorem c7_roundingDiffersFromSpecSum :
    calculateRiskScore ⟨0, 0, 0⟩ ⟨false, 0⟩ ⟨true, 15⟩ ⟨false, false, false⟩ 100 = 8 ∧
    specRiskScore ⟨0, 0, 0⟩ ⟨false, 0⟩ ⟨true, 15⟩ ⟨false, false, false⟩ 100 = 15 / 2 ∧
    ((calculateRiskScore ⟨0, 0, 0⟩ ⟨false, 0⟩ ⟨true, 15⟩ ⟨false, false, false⟩ 100 : ℚ)
      ≠ specRiskScore ⟨0, 0, 0⟩ ⟨false, 0⟩ ⟨true, 15⟩ ⟨false, false, false⟩ 100) := by
  refine ⟨?_, ?_, ?_⟩
  · norm_num [calculateRiskScore, jsRound]
  · norm_num [specRiskScore, specScoreSum]
  · norm_num [calculateRiskScore, specRiskScore, specScoreSum, jsRound]

/-- Pulling an `if`-accumulation step out as an additive contribution. -/
theorem ite_add_shift (c : Prop) [Decidable c] (s x : ℚ) :
    (if c then s + x else s) = s + (if c then x else 0) := by
  split <;> simp

/-- Pulling the two-tier velocity `if` out as an additive contribution. -/
theorem ite_add_shift2 (c1 c2 : Prop) [Decidable c1] [Decidable c2] (s x y : ℚ) :
    (if c1 then s + x else if c2 then s + y else s)
      = s + (if c1 then x else if c2 then y else 0) := by
  split
  · simp
  · split <;> simp

/-- The claimed sum is non-negative: every contribution is. -/
theorem specScoreSum_nonneg (v : VelocityAnalysis) (d : DeviceAnalysis)
    (m : MerchantAnalysis) (p : PatternAnalysis) (a : ℤ) :
    0 ≤ specScoreSum v d m p a := by
  unfold specScoreSum
  have hm : (0 : ℚ) ≤ (m.riskScore : ℚ) * (1 / 2) := by positivity
  have hv : (0 : ℚ) ≤
      (if (v.txnsLast24h : ℚ) > v.avgDaily * 3 then 25
        else if (v.txnsLast24h : ℚ) > v.avgDaily * 2 then 15 else 0) := by
    split
    · norm_num
    · split <;> norm_num
  repeat' apply add_nonneg
  all_goals first
    | exact hm
    | exact hv
    | (split <;> norm_num)

/-- Claim C7, amended: the composite risk score equals the listed sum of
bounded contributions *rounded to the nearest integer* (halves up) and
clamped above by 100; it always lies in `[0, 100]`. -/
theorem c7_riskScoreIsRoundedClampedSum (v : VelocityAnalysis)
    (d : DeviceAnalysis) (m : MerchantAnalysis) (p : PatternAnalysis) (a : ℤ) :
    calculateRiskScore v d m p a = min (jsRound (specScoreSum v d m p a)) 100 ∧
    0 ≤ calculateRiskScore v d m p a ∧ calculateRiskScore v d m p a ≤ 100 := by
  have heq : calculateRiskScore v d m p a
      = min (jsRound (specScoreSum v d m p a)) 100 := by
    unfold calculateRiskScore
    simp only [ite_add_shift2, ite_add_shift]
    congr 2
    unfold specScoreSum
    ring_nf
  refine ⟨heq, ?_, ?_⟩
  · rw [heq]
    have h0 : (0 : ℤ) ≤ jsRound (specScoreSum v d m p a) := by
      have := specScoreSum_nonneg v d m p a
      unfold jsRound
      rw [Int.le_floor]
      push_cast
      linarith
    exact le_min h0 (by norm_num)
  · rw [heq]
    exact min_le_right _ _

/-- Inside the window (`now ≤ resetTime`) the middleware increments the
counter and keeps the reset time. -/
theorem rateLimitStep_inWindow (W N now c r : ℕ) (h : now ≤ r) :
    rateLimitStep W N now (some ⟨c, r⟩)
      = { allowed := decide (c + 1 ≤ N), retryAfter := ceilDiv1000 (r - now),
          newInfo := ⟨c + 1, r⟩ } := by
  simp [rateLimitStep, Nat.not_lt.mpr h]

/-- The allowed/denied verdicts of a run whose requests all fall inside
the current window: starting from count `c`, the `i`-th request is
allowed exactly when `c + i + 1 ≤ N`. -/
theorem rateLimitRun_allowed_inWindow (W N : ℕ) :
    ∀ (ts : List ℕ) (c r : ℕ), (∀ t ∈ ts, t ≤ r) →
    (rateLimitRun W N ts (some ⟨c, r⟩)).1.map (·.allowed)
      = (List.range ts.length).map (fun i => decide (c + i + 1 ≤ N)) := by
  intro ts
  induction ts with
  | nil => intro c r _; rfl
  | cons t ts ih =>
    intro c r h
    have ht : t ≤ r := h t (by simp)
    have hrest : ∀ t' ∈ ts, t' ≤ r := fun t' ht' => h t' (by simp [ht'])
    simp only [rateLimitRun, rateLimitStep_inWindow W N t c r ht, List.map_cons,
      List.length_cons, List.range_succ_eq_map, List.map_map]
    refine congrArg₂ _ rfl ?_
    rw [ih (c + 1) r hrest]
    refine List.map_congr_left ?_
    intro i _
    simp only [Function.comp_apply]
    exact decide_eq_decide.mpr (by omega)

/-- Every outcome of an in-window run reports `retryAfter` at most the
ceiling of the window in seconds. -/
theorem rateLimitRun_retry_le (W N : ℕ) :
    ∀ (ts : List ℕ) (c r : ℕ), (∀ t ∈ ts, t ≤ r ∧ r ≤ t + W) →
    ∀ o ∈ (rateLimitRun W N ts (some ⟨c, r⟩)).1, o.retryAfter ≤ ceilDiv1000 W := by
  intro ts
  induction ts with
  | nil => intro c r _ o ho; simp [rateLimitRun] at ho
  | cons t ts ih =>
    intro c r h o ho
    obtain ⟨ht, hWin⟩ := h t (by simp)
    have hrest : ∀ t' ∈ ts, t' ≤ r ∧ r ≤ t' + W := fun t' ht' => h t' (by simp [ht'])
    simp only [rateLimitRun, rateLimitStep_inWindow W N t c r ht, List.mem_cons] at ho
    rcases ho with rfl | ho
    · show ceilDiv1000 (r - t) ≤ ceilDiv1000 W
      exact Nat.div_le_div_right (by omega)
    · exact ih (c + 1) r hrest o ho

/-- The ceiling division collapses to exact division when `1000 ∣ W`. -/
theorem ceilDiv1000_of_dvd (W : ℕ) (h : 1000 ∣ W) : ceilDiv1000 W = W / 1000 := by
  obtain ⟨k, rfl⟩ := h
  unfold ceilDiv1000
  rw [Nat.add_comm, Nat.add_mul_div_left 999 k (by norm_num),
    Nat.mul_div_cancel_left _ (show 0 < 1000 by norm_num)]
  norm_num

/-- Claim C8: for the fixed-window limiter with window `W` (a whole
number of seconds) and limit `N ≥ 1`, a burst of `N + 1` requests inside
one window gets its first `N` requests through and has its last request
rejected (`allowed = false`, the 429 path), every reported `retryAfter`
is at most `W / 1000` seconds, an expired window resets the counter to 1
and passes the request, and a store-read error fails open. -/
theorem c8_rateLimiterBoundary (W N t0 : ℕ) (ts : List ℕ)
    (hmem : ∀ t ∈ ts, t0 ≤ t ∧ t ≤ t0 + W)
    (hN : 1 ≤ N) (hlen : ts.length = N) (hdvd : 1000 ∣ W) :
    ((rateLimitRun W N (t0 :: ts) none).1.map (·.allowed)
      = (List.range (N + 1)).map (fun i => decide (i + 1 ≤ N))) ∧
    (∀ o ∈ (rateLimitRun W N (t0 :: ts) none).1, o.retryAfter ≤ W / 1000) ∧
    (∀ now c r, r < now →
      (rateLimitStep W N now (some ⟨c, r⟩)).newInfo.count = 1 ∧
      (rateLimitStep W N now (some ⟨c, r⟩)).allowed = true) ∧
    (∀ now, (rateLimitMiddleware W N now (.error ())).1 = true) := by
  have hfirst : rateLimitStep W N t0 none
      = { allowed := decide (1 ≤ N), retryAfter := ceilDiv1000 (t0 + W - t0),
          newInfo := ⟨1, t0 + W⟩ } := by
    simp [rateLimitStep]
  have hts : ∀ t ∈ ts, t ≤ t0 + W := fun t ht => (hmem t ht).2
  refine ⟨?_, ?_, ?_, ?_⟩
  · simp only [rateLimitRun, hfirst, List.map_cons]
    rw [rateLimitRun_allowed_inWindow W N ts 1 (t0 + W) hts, hlen]
    rw [List.range_succ_eq_map, List.map_cons, List.map_map]
    refine congrArg₂ _ (by simp [hN]) ?_
    refine List.map_congr_left ?_
    intro i _
    simp only [Function.comp_apply]
    exact decide_eq_decide.mpr (by omega)
  · intro o ho
    rw [← ceilDiv1000_of_dvd W hdvd]
    simp only [rateLimitRun, hfirst, List.mem_cons] at ho
    rcases ho with rfl | ho
    · show ceilDiv1000 (t0 + W - t0) ≤ ceilDiv1000 W
      exact Nat.div_le_div_right (by omega)
    · exact rateLimitRun_retry_le W N ts 1 (t0 + W)
        (fun t ht => ⟨hts t ht, by have := (hmem t ht).1; omega⟩) o ho
  · intro now c r h
    constructor <;> simp [rateLimitStep, h, hN]
  · intro now
    rfl

/-- Witness for claim C8 at `W = 60000 ms`, `N = 5`, six requests inside
one window. -/
theorem c8_rateLimiterBoundary_witness :
    (rateLimitRun 60000 5 [0, 10, 20, 30, 40, 50] none).1.map (·.allowed)
      = [true, true, true, true, true, false] ∧
    (∀ o ∈ (rateLimitRun 60000 5 [0, 10, 20, 30, 40, 50] none).1,
      o.retryAfter ≤ 60000 / 1000) := by
  have h := c8_rateLimiterBoundary 60000 5 0 [10, 20, 30, 40, 50]
    (by decide) (by decide) (by decide) (by decide)
  refine ⟨?_, h.2.1⟩
  have h1 := h.1
  rw [h1]
  decide

/-- The matched-branch window never exceeds `maxLength + 6` characters. -/
theorem snippetWindow_length_le (text : List Char) (bestIndex maxLength : ℕ) :
    (snippetWindow text bestIndex maxLength).length ≤ maxLength + 6 := by
  have h3 : ("...".data).length = 3 := rfl
  simp only [snippetWindow]
  have hmin := Nat.min_le_right text.length (bestIndex - (maxLength - 20) / 2 + maxLength)
  have hw := List.length_take_le
    (min text.length (bestIndex - (maxLength - 20) / 2 + maxLength)
      - (bestIndex - (maxLength - 20) / 2))
    (text.drop (bestIndex - (maxLength - 20) / 2))
  split_ifs <;> (try simp only [List.length_append, h3]) <;> omega

/-- The snippet builder returns at most 156 characters: a window of at
most 150 plus up to two three-character ellipses. -/
theorem extractSnippetL_length_le (text query : List Char) :
    (extractSnippetL text query 150).length ≤ 156 := by
  have h3 : ("...".data).length = 3 := rfl
  have hnone : ∀ l : List Char,
      (l.take 150 ++ (if 150 < l.length then "...".data else [])).length ≤ 156 := by
    intro l
    have ht := List.length_take_le 150 l
    by_cases h : 150 < l.length
    · rw [if_pos h]
      simp only [List.length_append, h3]
      omega
    · rw [if_neg h]
      simp only [List.length_append, List.length_nil]
      omega
  unfold extractSnippetL
  cases snippetBestIndex text query with
  | none => exact hnone text
  | some bestIndex =>
      calc (snippetWindow text bestIndex 150).length ≤ 150 + 6 :=
            snippetWindow_length_le text bestIndex 150
        _ ≤ 156 := by norm_num

/-- The ranked result list keeps at most five rows. -/
theorem rankResults_length_le (rows : List KBResultRow) :
    (rankResults rows).length ≤ 5 :=
  List.length_take_le 5 _

/-- The ranked result list is sorted by descending relevance score. -/
theorem rankResults_sorted (rows : List KBResultRow) :
    List.Pairwise (fun a b => b.relevanceScore ≤ a.relevanceScore)
      (rankResults rows) := by
  have hs := @List.sorted_mergeSort KBResultRow
    (fun a b => decide (b.relevanceScore ≤ a.relevanceScore))
    (fun a b c h1 h2 => by
      simp only [decide_eq_true_eq] at h1 h2 ⊢
      omega)
    (fun a b => by
      simp only [Bool.or_eq_true, decide_eq_true_eq]
      omega)
    (rows.filter (fun r => 0 < r.relevanceScore))
  have ht := List.Pairwise.sublist (List.take_sublist 5 _) hs
  exact ht.imp (fun h => by simpa using h)

set_option maxRecDepth 16384 in
/-- Claim C9, counterexample: a 151-character document with no query
match yields an extract of 153 characters (150-character prefix plus the
trailing ellipsis), exceeding the claimed 150-character bound. -/
theorem c9_snippetExceeds150 :
    (extractSnippet (String.mk (List.replicate 151 'a')) "zzz" 150).length = 153 ∧
    ¬ ((extractSnippet (String.mk (List.replicate 151 'a')) "zzz" 150).length ≤ 150) := by
  have h : (extractSnippet (String.mk (List.replicate 151 'a')) "zzz" 150).length
      = 153 := by decide
  exact ⟨h, by omega⟩

/-- Claim C9, amended: every extract is at most 156 characters — a
window of at most 150 characters plus up to two three-character
ellipses (153 when no term matches and the text is truncated) — and at
most five results are returned, sorted by descending relevance score. -/
theorem c9_snippetBoundAndRanking :
    (∀ text query : String, (extractSnippet text query 150).length ≤ 156) ∧
    (∀ (searchTerms : List String) (query : String) (docs : List KbDocRec),
      (searchResults searchTerms query docs).length ≤ 5 ∧
      List.Pairwise (fun a b => b.relevanceScore ≤ a.relevanceScore)
        (searchResults searchTerms query docs)) := by
  constructor
  · intro text query
    exact extractSnippetL_length_le text.data query.data
  · intro searchTerms query docs
    exact ⟨rankResults_length_le _, rankResults_sorted _⟩

/-- The profile analysis always reports zero historical incidents. -/
theorem analyzeCustomerProfile_incidents (txs : List InsightsTxn) :
    (analyzeCustomerProfile txs).historicalIncidents = 0 := by
  unfold analyzeCustomerProfile
  split <;> rfl

/-- Claim C10: for every context the insights risk assessment's
confidence lies in `[80, 95]` — the base of 70 always receives the
`historicalIncidents === 0` bonus of 10 because the profile analysis
hard-codes zero incidents, and the cap is `Math.min(confidence, 95)`. -/
theorem c10_confidenceBetween80And95 (recentTxSlot : Option (List InsightsTxn))
    (riskSignalsSlot : Option RiskSignalsView) :
    80 ≤ (insightsRiskAssessment recentTxSlot riskSignalsSlot).confidence ∧
    (insightsRiskAssessment recentTxSlot riskSignalsSlot).confidence ≤ 95 := by
  unfold insightsRiskAssessment generateRiskAssessment
  simp only [analyzeCustomerProfile_incidents, if_true]
  split_ifs <;>
    exact ⟨le_min (by omega) (by norm_num), min_le_right _ _⟩

end Sentinel
